import Mathlib

/-!
Shallow embedding of the booking/payment consistency core of the HMS hotel
management backend (FastAPI + SQLAlchemy), together with theorems settling
the specification claims about it.

The embedding models the relational store as in-memory lists of records.
`db.query(...).filter(...).first()` becomes `List.find?`, `.all()` becomes
`List.filter`, mutating an ORM object found by `first()` becomes an update of
the first matching list element, `db.delete` of such an object becomes removal
of the first matching element, and a committed write becomes a new state value.
Every endpoint returns `Except ApiError σ`: raising `HTTPException` before any
commit corresponds to `.error e` with the store unchanged.  Where an endpoint
issues two separate `db.commit()` calls, the embedding factors the function
through the intermediate committed state, so that the state visible after the
first commit is a definable value.

Dates are modelled as integers (ordinal days, compared with the same order as
`datetime.date`), datetimes as integers plus an explicit timezone-awareness
flag.  Monetary amounts are modelled as integers: the `Room.amount` column is
an SQLAlchemy `Integer`, and the payment amounts (floats in the schema) enter
the claims only through addition, multiplication, `max` and order comparisons,
which the embedding states over the integers.
-/

deriving instance DecidableEq for Except

namespace HMS

/-- A row of the `rooms` table (app/rooms/models.py): unique room number,
category label, nightly rate, cached status string. -/
structure Room where
  room_number : String
  room_type : String
  amount : Int
  status : String
deriving DecidableEq

/-- A row of the `reservations` table: a stay (reservation or check-in,
discriminated by `status`) occupying a date range against a room. -/
structure Reservation where
  room_number : String
  guest_name : String
  arrival_date : Int
  departure_date : Int
  status : String
deriving DecidableEq

/-- The reservations-side store: rooms plus stay records. -/
structure DB where
  rooms : List Room
  reservations : List Reservation
deriving DecidableEq

/-- The error outcomes the embedded endpoints can raise.  Constructors carry
the dynamic data interpolated into the corresponding `HTTPException` message,
so that which error was raised, and with which identifying payload, is
observable. -/
inductive ApiError where
  /-- 400: malformed or out-of-policy input. -/
  | validation (detail : String)
  /-- 404: referenced record absent. -/
  | notFound (detail : String)
  /-- 400 from create_reservation: an overlapping checked-in stay exists; the
  message interpolates that stay's arrival and departure dates. -/
  | conflictCheckIn (arrival_date departure_date : Int)
  /-- 400 from create_reservation: an overlapping reservation exists; the
  message interpolates that stay's arrival and departure dates. -/
  | conflictReservation (arrival_date departure_date : Int)
  /-- 403: caller lacks the required role. -/
  | permission (detail : String)
  /-- 400: operation not legal in the current status. -/
  | invalidState (detail : String)
  /-- 400 from create_payment: the new running total would exceed the total
  due; the message interpolates `reported`, the amount the detail string
  names (source: "Payment exceeds the total due amount of \x7beffective_total_due\x7d"). -/
  | overpayment (reported : Int)
deriving DecidableEq

/-- db.query(Room).filter(Room.room_number == n).first() -/
def findRoom (db : DB) (n : String) : Option Room :=
  db.rooms.find? (fun r => r.room_number == n)

/-- Committing `room.status = s` on the ORM object found by room number:
every stored room row with that (unique) number gets the new status. -/
def setRoomStatus (db : DB) (n : String) (s : String) : DB :=
  { db with rooms := db.rooms.map (fun r => if r.room_number == n then { r with status := s } else r) }

/-- The date-overlap filter used by the reservation conflict queries:
`existing.arrival_date <= new.departure_date AND existing.departure_date >= new.arrival_date`
(src/main.py lines 283-285), with the existing stay's interval first. -/
def datesConflict (existing_arrival existing_departure arrival departure : Int) : Bool :=
  decide (existing_arrival ≤ departure) && decide (existing_departure ≥ arrival)

/-- Date-overlap filter applied to a stored stay row. -/
def stayConflictsWith (r : Reservation) (arrival departure : Int) : Bool :=
  datesConflict r.arrival_date r.departure_date arrival departure

/-- Mutating-and-committing the first element an ORM `first()` query returned:
replace the first element satisfying `p` by its image under `f`. -/
def updateFirst {α : Type} (p : α → Bool) (f : α → α) : List α → List α
  | [] => []
  | x :: xs => if p x then f x :: xs else x :: updateFirst p f xs

/-- db.delete of the first element a `first()` query returned: remove the
first element satisfying `p`. -/
def removeFirst {α : Type} (p : α → Bool) : List α → List α
  | [] => []
  | x :: xs => if p x then xs else x :: removeFirst p xs

/-- Modelled from the spec: `check_overlapping_check_in` is defined in
app/reservations/crud.py, which is absent from the sources (only its import
and call sites in app/reservations/router.py are present).  Per §4.1 the
Availability Checker scans the active check-in population for an
inclusive-bounds date overlap and returns the conflicting stay. -/
def check_overlapping_check_in (db : DB) (room_number : String) (arrival departure : Int) :
    Option Reservation :=
  db.reservations.find? (fun r =>
    r.room_number == room_number && r.status == "checked-in" && stayConflictsWith r arrival departure)

/-- Modelled from the spec: `check_overlapping_reservations` is defined in
app/reservations/crud.py, which is absent from the sources.  Per §4.1 it scans
the other disjoint population, active (non-cancelled) reservations — stays in
status "reserved" — for an inclusive-bounds date overlap. -/
def check_overlapping_reservations (db : DB) (room_number : String) (arrival departure : Int) :
    Option Reservation :=
  db.reservations.find? (fun r =>
    r.room_number == room_number && r.status == "reserved" && stayConflictsWith r arrival departure)

/-- Inserting-and-committing a new stay row (the `db.add(new_reservation);
db.commit()` pair that create_reservation and check_in_guest perform before
they touch the room's status).  This is the state the store is left in when
execution fails after that first commit: the later `db.rollback()` can only
undo uncommitted work, so the inserted stay persists. -/
def insertReservationPhase (db : DB) (res : Reservation) : DB :=
  { db with reservations := db.reservations ++ [res] }

/-- Marking-and-committing the checked-in stay as checked-out (the
`reservation.status = "checked-out"; db.commit()` pair at src/main.py lines
394-395 — check_out_guest's first commit): the rooms table is untouched at
this point. -/
def checkOutStayPhase (db : DB) (room_number : String) : DB :=
  let reservations' := updateFirst
    (fun r => r.room_number == room_number && r.status == "checked-in")
    (fun r => { r with status := "checked-out" }) db.reservations
  { db with reservations := reservations' }

/-- Deleting-and-committing the reservation row found by room number and guest
name (the `db.delete(reservation); db.commit()` pair at
app/reservations/router.py lines 179-180 — delete_reservation's first
commit): the rooms table is untouched at this point. -/
def deleteReservationPhase (db : DB) (room_number guest_name : String) : DB :=
  let reservations' := removeFirst
    (fun r => r.room_number == room_number && r.guest_name == guest_name) db.reservations
  { db with reservations := reservations' }

/-- The first committed unit of cancel_reservation (src/main.py lines
477-481): when the room exists with cached status "reserved", its status is
set to "available" and committed — before the reservation row is deleted —
and otherwise no room write happens.  The stay rows are untouched at this
point. -/
def cancelRoomStatusPhase (db : DB) (room_number : String) : DB :=
  match findRoom db room_number with
  | some room =>
    if room.status == "reserved" then setRoomStatus db room_number "available" else db
  | none => db

namespace ReservationsRouter

/-- POST / in app/reservations/router.py (create_reservation): validates the
request, checks check-in conflicts then reservation conflicts then
maintenance, and on success commits the new reserved stay (first commit) and
then the room status update (second commit). -/
def create_reservation (db : DB) (today : Int) (room_number guest_name : String)
    (arrival departure : Int) : Except ApiError DB :=
  if room_number == "" then
    .error (.validation "Room number is required.")
  else if decide (departure < arrival) then
    .error (.validation "Arrival date must be before or on the same day as the departure date.")
  else if decide (arrival ≤ today) then
    .error (.validation "Reservations cannot be made for today or past dates. Use the check-in functionality instead.")
  else
    match findRoom db room_number with
    | none => .error (.notFound "Room not found.")
    | some room =>
      match check_overlapping_check_in db room_number arrival departure with
      | some c => .error (.conflictCheckIn c.arrival_date c.departure_date)
      | none =>
        match check_overlapping_reservations db room_number arrival departure with
        | some c => .error (.conflictReservation c.arrival_date c.departure_date)
        | none =>
          if room.status == "maintenance" then
            .error (.invalidState "Room is under maintenance and cannot be reserved.")
          else
            .ok (setRoomStatus
              (insertReservationPhase db
                { room_number := room_number, guest_name := guest_name,
                  arrival_date := arrival, departure_date := departure, status := "reserved" })
              room_number "reserved")

/-- DELETE /delete-reservation/ in app/reservations/router.py
(delete_reservation): finds the reservation by room number and guest name,
checks admin-or-owner permission, deletes it, and resets the room to
"available" only when no reservation rows (of any status) remain for the
room. -/
def delete_reservation (db : DB) (caller_role caller_username : String)
    (room_number guest_name : String) : Except ApiError DB :=
  match db.reservations.find? (fun r => r.room_number == room_number && r.guest_name == guest_name) with
  | none => .error (.notFound "No reservation found for the specified room and guest.")
  | some resv =>
    if caller_role != "admin" && resv.guest_name != caller_username then
      .error (.permission "You do not have permission to delete this reservation.")
    else
      let db1 := deleteReservationPhase db room_number guest_name
      let remaining := (db1.reservations.filter (fun r => r.room_number == room_number)).length
      if remaining == 0 then
        .ok (setRoomStatus db1 room_number "available")
      else
        .ok db1

end ReservationsRouter

namespace MainApp

/-- POST /reservations/ in src/main.py (create_reservation): requires the room
to exist with cached status "available", and rejects when any stored
reservation row for the room — regardless of its status — overlaps the
requested dates; on success commits the reserved stay then the room status. -/
def create_reservation (db : DB) (room_number guest_name : String)
    (arrival departure : Int) : Except ApiError DB :=
  if room_number == "" || guest_name == "" then
    .error (.validation "Room number and guest name are required.")
  else
    match findRoom db room_number with
    | none => .error (.notFound "Room not found")
    | some room =>
      if room.status != "available" then
        .error (.validation "Room is not available for reservation.")
      else
        match db.reservations.find? (fun r =>
            r.room_number == room_number && stayConflictsWith r arrival departure) with
        | some _ => .error (.validation "A reservation already exists for this room during the specified period.")
        | none =>
          .ok (setRoomStatus
            (insertReservationPhase db
              { room_number := room_number, guest_name := guest_name,
                arrival_date := arrival, departure_date := departure, status := "reserved" })
            room_number "reserved")

/-- POST /check-in/ in src/main.py (check_in_guest): requires the room to
exist with cached status "available" — no date scan of existing stays — and on
success commits the checked-in stay (first commit) then the room status update
(second commit). -/
def check_in_guest (db : DB) (room_number guest_name : String)
    (arrival departure : Int) : Except ApiError DB :=
  match findRoom db room_number with
  | none => .error (.notFound "Room not found")
  | some room =>
    if room.status != "available" then
      .error (.invalidState "Room is not available for check-in")
    else
      .ok (setRoomStatus
        (insertReservationPhase db
          { room_number := room_number, guest_name := guest_name,
            arrival_date := arrival, departure_date := departure, status := "checked-in" })
        room_number "checked-in")

/-- PUT /check-out/\x7broom_number\x7d in src/main.py (check_out_guest): requires a
checked-in stay for the room, marks it checked-out, and then sets the room's
status to "available" unconditionally. -/
def check_out_guest (db : DB) (room_number : String) : Except ApiError DB :=
  match findRoom db room_number with
  | none => .error (.notFound "Room not found")
  | some _ =>
    match db.reservations.find? (fun r => r.room_number == room_number && r.status == "checked-in") with
    | none => .error (.invalidState "Room is not currently checked-in.")
    | some _ =>
      .ok (setRoomStatus (checkOutStayPhase db room_number) room_number "available")

/-- DELETE /reservations/\x7broom_number\x7d in src/main.py (cancel_reservation):
admin-only (the caller's username is never consulted); finds the first
reservation row for the room, resets the room to "available" when its cached
status is "reserved", and deletes the reservation row. -/
def cancel_reservation (db : DB) (caller_role : String) (room_number : String) :
    Except ApiError DB :=
  if caller_role != "admin" then
    .error (.permission "You do not have permission to cancel reservations.")
  else
    match db.reservations.find? (fun r => r.room_number == room_number) with
    | none => .error (.notFound "No reservation found for the specified room number.")
    | some _ =>
      let db1 := cancelRoomStatusPhase db room_number
      .ok { db1 with reservations := removeFirst (fun r => r.room_number == room_number) db1.reservations }

end MainApp

/-- Modelled from the spec: the Booking model lives in app/bookings/models.py,
absent from the sources; its fields are those read by the payments router and
§3 — room reference, guest, a number-of-days snapshot fixed at booking time,
lifecycle status, cached payment status, and booking cost snapshot. -/
structure Booking where
  id : Int
  room_number : String
  guest_name : String
  number_of_days : Int
  status : String
  payment_status : String
  booking_cost : Int
deriving DecidableEq

/-- Modelled from the spec: the Payment model lives in app/payments/models.py,
absent from the sources; its fields are those read by the payments router and
§3.  `discount_allowed` is nullable in the store (the router reads it as
`payment.discount_allowed or 0`). -/
structure Payment where
  id : Int
  booking_id : Int
  amount_paid : Int
  discount_allowed : Option Int
  payment_method : String
  payment_date : Int
  balance_due : Int
  status : String
deriving DecidableEq

/-- The payments-side store: rooms, bookings and payment rows. -/
structure PayDB where
  rooms : List Room
  bookings : List Booking
  payments : List Payment
deriving DecidableEq

/-- A payment-creation request (app/payments/schemas.py PaymentCreateSchema),
with the datetime split into an instant and a timezone-awareness flag
(`payment_date_tzaware` models `payment_date.tzinfo is not None`). -/
structure PaymentRequest where
  amount_paid : Int
  discount_allowed : Option Int
  payment_method : String
  payment_date : Int
  payment_date_tzaware : Bool
deriving DecidableEq

/-- Modelled from the spec: `crud.get_payment_by_id` lives in
app/payments/crud.py, absent from the sources; it is the store lookup of a
payment row by its primary key. -/
def get_payment_by_id (db : PayDB) (payment_id : Int) : Option Payment :=
  db.payments.find? (fun p => p.id == payment_id)

namespace PaymentsRouter

/-- db.query(Room).filter by room number on the payments-side store
(crud.get_room_by_number; app/payments/crud.py is absent from the sources,
modelled from the spec as the room lookup by unique number). -/
def get_room_by_number (db : PayDB) (n : String) : Option Room :=
  db.rooms.find? (fun r => r.room_number == n)

/-- Sum of `payment.amount_paid + (payment.discount_allowed or 0)` over the
non-voided payment rows of a booking (app/payments/router.py lines 79-87). -/
def total_existing_payment (db : PayDB) (booking_id : Int) : Int :=
  ((db.payments.filter (fun p => p.booking_id == booking_id && p.status != "voided")).map
    (fun p => p.amount_paid + p.discount_allowed.getD 0)).sum

/-- POST /create/\x7bbooking_id\x7d in app/payments/router.py (create_payment):
validates the timestamp, looks up booking and room, requires booking status
checked-in or reserved, aggregates existing non-voided payments, rejects
overpayment (the error interpolates the total due), computes balance due and
payment status, persists the payment (via crud.create_payment, modelled from
the spec as inserting the row with the computed fields; `next_id` stands for
the store-assigned primary key) and writes the status onto the booking.
`now` is the server clock instant. -/
def create_payment (db : PayDB) (now : Int) (booking_id : Int) (req : PaymentRequest)
    (next_id : Int) : Except ApiError (PayDB × Payment) :=
  if !req.payment_date_tzaware then
    .error (.validation "The provided payment_date must include timezone information.")
  else if decide (now < req.payment_date) then
    .error (.validation "Transaction time cannot be in the future.")
  else
    match db.bookings.find? (fun b => b.id == booking_id) with
    | none => .error (.notFound "Booking does not exist.")
    | some booking_record =>
      match get_room_by_number db booking_record.room_number with
      | none => .error (.notFound "Room does not exist.")
      | some room =>
        if !(booking_record.status == "checked-in" || booking_record.status == "reserved") then
          .error (.invalidState "Booking must be checked-in or reserved to make a payment.")
        else
          let num_days := booking_record.number_of_days
          let total_due := num_days * room.amount
          let new_total_payment :=
            total_existing_payment db booking_id + req.amount_paid + req.discount_allowed.getD 0
          let effective_total_due := total_due
          if decide (effective_total_due < new_total_payment) then
            .error (.overpayment effective_total_due)
          else
            let balance_due := max (effective_total_due - new_total_payment) 0
            let status := if decide (0 < balance_due) then "payment incomplete" else "payment completed"
            let new_payment : Payment :=
              { id := next_id, booking_id := booking_id,
                amount_paid := req.amount_paid, discount_allowed := req.discount_allowed,
                payment_method := req.payment_method, payment_date := req.payment_date,
                balance_due := balance_due, status := status }
            let bookings' := updateFirst (fun b => b.id == booking_id)
              (fun b => { b with payment_status := status }) db.bookings
            .ok ({ db with payments := db.payments ++ [new_payment], bookings := bookings' },
                 new_payment)

/-- PUT /void/\x7bpayment_id\x7d/ in app/payments/router.py (void_payment):
admin-only; looks up the payment by id (404 if absent, with no status
precondition), sets its status to "voided" and commits.  The amount paid and
all other fields are untouched. -/
def void_payment (db : PayDB) (caller_role : String) (payment_id : Int) :
    Except ApiError PayDB :=
  if caller_role != "admin" then
    .error (.permission "Insufficient permissions")
  else
    match get_payment_by_id db payment_id with
    | none => .error (.notFound "Payment not found.")
    | some _ =>
      let payments' := updateFirst (fun p => p.id == payment_id)
        (fun p => { p with status := "voided" }) db.payments
      .ok { db with payments := payments' }

end PaymentsRouter

/-! Invariants over the reservations-side store (spec §3, §8). -/

/-- A stay counts toward conflict checks iff its status is reserved or
checked-in (glossary: active stay). -/
def activeStay (r : Reservation) : Bool :=
  r.status == "reserved" || r.status == "checked-in"

/-- Two stored stays overlap in their [arrival, departure] intervals. -/
def staysOverlap (r1 r2 : Reservation) : Bool :=
  datesConflict r1.arrival_date r1.departure_date r2.arrival_date r2.departure_date

/-- Two stays never violate the core invariant together: if they are on the
same room and both active, their intervals do not overlap. -/
def noActiveOverlapPair (r1 r2 : Reservation) : Prop :=
  r1.room_number = r2.room_number → activeStay r1 = true → activeStay r2 = true →
    staysOverlap r1 r2 = false

/-- The core consistency invariant of §3: for a given room, the stays with
status in \x7breserved, checked-in\x7d are pairwise non-overlapping. -/
def overlapInvariant (db : DB) : Prop :=
  db.reservations.Pairwise noActiveOverlapPair

/-- The room-status cache does not understate occupancy: a room whose cached
status is "available" has no active stay (§3, Room invariant). -/
def statusConsistent (db : DB) : Prop :=
  ∀ room ∈ db.rooms, room.status = "available" →
    ∀ r ∈ db.reservations, r.room_number = room.room_number → activeStay r = false

/-- Conjunction of the overlap invariant and room-status consistency. -/
def Inv (db : DB) : Prop := overlapInvariant db ∧ statusConsistent db

/-- One request against the stay-creating endpoints: a CreateReservation
(app/reservations/router.py, with the server date `today`) or a CheckIn
(src/main.py check_in_guest). -/
inductive Op where
  | createReservation (today : Int) (room_number guest_name : String) (arrival departure : Int)
  | checkIn (room_number guest_name : String) (arrival departure : Int)

/-- The store after a request: the endpoint's committed result on success, the
unchanged store when it raised before any commit. -/
def commitState (db : DB) : Except ApiError DB → DB
  | .ok db' => db'
  | .error _ => db

/-- Apply one request to the store. -/
def applyOp (db : DB) : Op → DB
  | .createReservation t n g a d => commitState db (ReservationsRouter.create_reservation db t n g a d)
  | .checkIn n g a d => commitState db (MainApp.check_in_guest db n g a d)

/-- Apply a sequence of requests to the store, left to right. -/
def runOps (db : DB) (ops : List Op) : DB := ops.foldl applyOp db

theorem activeStay_iff (r : Reservation) :
    activeStay r = true ↔ r.status = "reserved" ∨ r.status = "checked-in" := by
  simp [activeStay]

theorem setRoomStatus_reservations (db : DB) (n s : String) :
    (setRoomStatus db n s).reservations = db.reservations := rfl

theorem overlapInvariant_setRoomStatus (db : DB) (n s : String)
    (h : overlapInvariant db) : overlapInvariant (setRoomStatus db n s) := h

/-- Inserting a stay for room `n` keeps the overlap invariant provided no
stored active stay on room `n` overlaps the new interval. -/
theorem overlapInvariant_insert (db : DB) (n g : String) (a d : Int) (st : String)
    (h : overlapInvariant db)
    (hsafe : ∀ r ∈ db.reservations, r.room_number = n → activeStay r = true →
      stayConflictsWith r a d = false) :
    overlapInvariant (insertReservationPhase db ⟨n, g, a, d, st⟩) := by
  unfold overlapInvariant insertReservationPhase
  rw [List.pairwise_append]
  refine ⟨h, List.pairwise_singleton _ _, ?_⟩
  intro x hx y hy
  simp only [List.mem_singleton] at hy
  subst hy
  intro hroom hax _
  exact hsafe x hx hroom hax

/-- Setting the room's status to a non-"available" value after inserting a
stay for that room preserves room-status consistency. -/
theorem statusConsistent_step (db : DB) (n g : String) (a d : Int) (st s : String)
    (hs : ¬ s = "available")
    (h : statusConsistent db) :
    statusConsistent (setRoomStatus (insertReservationPhase db ⟨n, g, a, d, st⟩) n s) := by
  intro room hroom havail r hr hnum
  simp only [setRoomStatus, insertReservationPhase, List.mem_map] at hroom
  obtain ⟨r0, hr0, hr0eq⟩ := hroom
  by_cases hn : r0.room_number == n
  · rw [if_pos hn] at hr0eq
    have hs' : room.status = s := by rw [← hr0eq]
    exact absurd (hs'.symm.trans havail) hs
  · rw [if_neg hn] at hr0eq
    subst hr0eq
    have hr' : r ∈ db.reservations ++ [⟨n, g, a, d, st⟩] := hr
    rw [List.mem_append, List.mem_singleton] at hr'
    rcases hr' with hr | hr
    · exact h r0 hr0 havail r hr hnum
    · subst hr
      simp only at hnum
      exact absurd (beq_iff_eq.mpr hnum.symm) hn

/-- CreateReservation (app/reservations/router.py) preserves the conjoined
invariant: every error branch leaves the store unchanged, and the success
branch has passed both availability predicates, so the new reserved stay
overlaps no active stay. -/
theorem create_reservation_preserves_Inv (db : DB) (t : Int) (n g : String) (a d : Int)
    (h : Inv db) :
    Inv (commitState db (ReservationsRouter.create_reservation db t n g a d)) := by
  unfold ReservationsRouter.create_reservation
  split
  · exact h
  split
  · exact h
  split
  · exact h
  split
  · exact h
  next room hroom =>
  split
  · exact h
  next hci =>
  split
  · exact h
  next hres =>
  split
  · exact h
  refine ⟨?_, ?_⟩
  · apply overlapInvariant_setRoomStatus
    apply overlapInvariant_insert _ _ _ _ _ _ h.1
    intro r hr hroomn hact
    rcases (activeStay_iff r).mp hact with hst | hst
    · have := List.find?_eq_none.mp hres r hr
      simp only [Bool.and_eq_true, beq_iff_eq, not_and] at this
      by_contra hconf
      exact absurd (this ⟨hroomn, hst⟩) (by simpa using hconf)
    · have := List.find?_eq_none.mp hci r hr
      simp only [Bool.and_eq_true, beq_iff_eq, not_and] at this
      by_contra hconf
      exact absurd (this ⟨hroomn, hst⟩) (by simpa using hconf)
  · exact statusConsistent_step db n g a d "reserved" "reserved" (by decide) h.2

/-- CheckIn (src/main.py check_in_guest) preserves the conjoined invariant:
it succeeds only when the room's cached status is "available", and consistency
then guarantees the room has no active stay at all, so the new checked-in stay
overlaps nothing. -/
theorem check_in_guest_preserves_Inv (db : DB) (n g : String) (a d : Int)
    (h : Inv db) :
    Inv (commitState db (MainApp.check_in_guest db n g a d)) := by
  unfold MainApp.check_in_guest
  split
  · exact h
  next room hroom =>
  split
  · exact h
  next havail =>
  have hmem : room ∈ db.rooms := List.mem_of_find?_eq_some hroom
  have hnum : room.room_number = n := by
    have := List.find?_some hroom
    simpa using this
  have hstatus : room.status = "available" := by
    simpa using havail
  have hnone : ∀ r ∈ db.reservations, r.room_number = n → activeStay r = false := by
    intro r hr hrn
    exact h.2 room hmem hstatus r hr (hrn.trans hnum.symm)
  refine ⟨?_, ?_⟩
  · apply overlapInvariant_setRoomStatus
    apply overlapInvariant_insert _ _ _ _ _ _ h.1
    intro r hr hroomn hact
    rw [hnone r hr hroomn] at hact
    exact absurd hact (by decide)
  · exact statusConsistent_step db n g a d "checked-in" "checked-in" (by decide) h.2

/-- Every sequence of CreateReservation and CheckIn requests preserves the
conjoined invariant. -/
theorem runOps_preserves_Inv (db : DB) (h : Inv db) (ops : List Op) :
    Inv (runOps db ops) := by
  induction ops generalizing db with
  | nil => exact h
  | cons op ops ih =>
    have hstep : Inv (applyOp db op) := by
      cases op with
      | createReservation t n g a d => exact create_reservation_preserves_Inv db t n g a d h
      | checkIn n g a d => exact check_in_guest_preserves_Inv db n g a d h
    exact ih (applyOp db op) hstep

instance : DecidableRel noActiveOverlapPair := fun r1 r2 => by
  unfold noActiveOverlapPair
  infer_instance

instance (db : DB) : Decidable (overlapInvariant db) := by
  unfold overlapInvariant
  infer_instance

instance (db : DB) : Decidable (statusConsistent db) := by
  unfold statusConsistent
  infer_instance

instance (db : DB) : Decidable (Inv db) := by
  unfold Inv
  infer_instance

/-! Concrete states used by the counterexamples and witnesses. -/

/-- A store in which room 101's cached status is "available" while a future
reserved stay for it exists: the stay set satisfies the pairwise-non-overlap
invariant (it has a single active stay), but the status cache disagrees with
the stay set. -/
def dbC1 : DB :=
  { rooms := [{ room_number := "101", room_type := "standard", amount := 100, status := "available" }],
    reservations := [{ room_number := "101", guest_name := "alice", arrival_date := 10,
                       departure_date := 20, status := "reserved" }] }

/-- The store produced by checking bob into room 101 for days 15-25 from
`dbC1`: alice's reserved stay (days 10-20) and bob's checked-in stay now
overlap on the same room. -/
def dbC1after : DB :=
  { rooms := [{ room_number := "101", room_type := "standard", amount := 100, status := "checked-in" }],
    reservations := [{ room_number := "101", guest_name := "alice", arrival_date := 10,
                       departure_date := 20, status := "reserved" },
                     { room_number := "101", guest_name := "bob", arrival_date := 15,
                       departure_date := 25, status := "checked-in" }] }

/-- C1 (counterexample): a single CheckIn request does not preserve the
pairwise-non-overlap invariant, because check_in_guest (src/main.py) consults
only the cached room status and never scans dates: from `dbC1`, whose stays
satisfy the invariant, checking bob into room 101 for days 15-25 succeeds and
yields a store with two overlapping active stays on room 101.  So it is not
the case that each operation rejects every request that would introduce an
overlap. -/
theorem C1_counterexample :
    overlapInvariant dbC1 ∧
    MainApp.check_in_guest dbC1 "101" "bob" 15 25 = Except.ok dbC1after ∧
    ¬ overlapInvariant dbC1after := by
  refine ⟨by decide, rfl, by decide⟩

/-- C1 (amended): for every room, among all stays with status in \x7breserved,
checked-in\x7d, no two stays have overlapping [arrival, departure] intervals, and
every sequence of CreateReservation and CheckIn requests preserves this
provided the starting store also satisfies room-status consistency (a room
cached as "available" has no active stay) — CreateReservation rejects by
scanning dates, while CheckIn rejects solely through the cached room status,
which suffices only when that cache does not understate occupancy. -/
theorem C1_amended_sequences_preserve_overlap_invariant (db : DB) (h : Inv db)
    (ops : List Op) : overlapInvariant (runOps db ops) :=
  (runOps_preserves_Inv db h ops).1

/-- A one-room store with no stays, from which a CheckIn followed by a
non-overlapping future CreateReservation both succeed. -/
def dbW1 : DB :=
  { rooms := [{ room_number := "201", room_type := "standard", amount := 100, status := "available" }],
    reservations := [] }

/-- A CheckIn for days 0-2 and then a CreateReservation for days 5-7 on room
201 (server date 0). -/
def opsW1 : List Op :=
  [Op.checkIn "201" "bob" 0 2, Op.createReservation 0 "201" "alice" 5 7]

/-- C1 (witness): the amended preservation theorem applied to the concrete
store `dbW1` and the two-request sequence `opsW1`, both of whose requests
succeed. -/
theorem C1_witness : Inv dbW1 ∧ overlapInvariant (runOps dbW1 opsW1) :=
  ⟨by decide, C1_amended_sequences_preserve_overlap_invariant dbW1 (by decide) opsW1⟩

/-- The reserved-stay row create_reservation inserts for a request. -/
def newReserved (n g : String) (a d : Int) : Reservation :=
  { room_number := n, guest_name := g, arrival_date := a, departure_date := d, status := "reserved" }

/-- The checked-in-stay row check_in_guest inserts for a request. -/
def newCheckedIn (n g : String) (a d : Int) : Reservation :=
  { room_number := n, guest_name := g, arrival_date := a, departure_date := d, status := "checked-in" }

/-- A one-room store (room 102, status "available", no stays) on which both a
CreateReservation and a CheckIn for days 5-7 succeed. -/
def dbC2 : DB :=
  { rooms := [{ room_number := "102", room_type := "standard", amount := 100, status := "available" }],
    reservations := [] }

/-- The store after the first commit of create_reservation on `dbC2`: the
reserved stay is persisted, the room status is still "available". -/
def dbC2mid : DB := insertReservationPhase dbC2 (newReserved "102" "carol" 5 7)

/-- The store after both commits of create_reservation on `dbC2`. -/
def dbC2full : DB :=
  { rooms := [{ room_number := "102", room_type := "standard", amount := 100, status := "reserved" }],
    reservations := [newReserved "102" "carol" 5 7] }

/-- C2 (counterexample): create_reservation (app/reservations/router.py lines
93-99) commits the stay insert and the room status update separately, so the
operation is not one atomic unit.  On `dbC2` the successful run passes through
the committed intermediate state `dbC2mid`, which differs from both the
pre-state and the post-state: the new reserved stay is already persisted while
room 102's status still reads "available".  A failure between the two commits
leaves exactly this state — `db.rollback()` cannot undo the first commit — so
the stay record and the room status disagree observably. -/
theorem C2_counterexample :
    ReservationsRouter.create_reservation dbC2 0 "102" "carol" 5 7 = Except.ok dbC2full ∧
    dbC2full = setRoomStatus dbC2mid "102" "reserved" ∧
    dbC2mid ≠ dbC2 ∧
    dbC2mid ≠ dbC2full ∧
    newReserved "102" "carol" 5 7 ∈ dbC2mid.reservations ∧
    findRoom dbC2mid "102" =
      some { room_number := "102", room_type := "standard", amount := 100, status := "available" } := by
  refine ⟨rfl, by decide, by decide, by decide, by decide, by decide⟩

/-- C2 (amended): each mutating lifecycle operation performs its Stay write
and its Room status write as two separately committed units rather than one
atomic unit.  Every successful run factors through a committed intermediate
state: create_reservation and check_in_guest commit the stay insert first
(`insertReservationPhase`, rooms untouched) and the room status second;
check_out_guest commits the stay's checked-out transition first
(`checkOutStayPhase`, rooms untouched) and the room status second;
delete_reservation commits the row deletion first (`deleteReservationPhase`,
rooms untouched) and the conditional room reset second; cancel_reservation
commits in the reverse order — the room status write first
(`cancelRoomStatusPhase`, stay rows untouched) and the row deletion second.
A failure between the two commits of a run leaves the first unit committed
and the second not applied, so the stay records and the room status can
disagree observably; only a failure before the first commit leaves the store
unchanged. -/
theorem C2_amended_two_separate_commits (db : DB) (t : Int) (n g role username : String)
    (a d : Int) :
    (∀ db1, ReservationsRouter.create_reservation db t n g a d = Except.ok db1 →
      db1 = setRoomStatus (insertReservationPhase db (newReserved n g a d)) n "reserved") ∧
    (∀ db2, MainApp.check_in_guest db n g a d = Except.ok db2 →
      db2 = setRoomStatus (insertReservationPhase db (newCheckedIn n g a d)) n "checked-in") ∧
    (∀ db3, MainApp.check_out_guest db n = Except.ok db3 →
      db3 = setRoomStatus (checkOutStayPhase db n) n "available") ∧
    (∀ db4, ReservationsRouter.delete_reservation db role username n g = Except.ok db4 →
      db4 = setRoomStatus (deleteReservationPhase db n g) n "available" ∨
        db4 = deleteReservationPhase db n g) ∧
    (∀ db5, MainApp.cancel_reservation db role n = Except.ok db5 →
      db5 = { cancelRoomStatusPhase db n with
        reservations := removeFirst (fun r => r.room_number == n)
          (cancelRoomStatusPhase db n).reservations }) ∧
    (insertReservationPhase db (newReserved n g a d)).rooms = db.rooms ∧
    (insertReservationPhase db (newCheckedIn n g a d)).rooms = db.rooms ∧
    (checkOutStayPhase db n).rooms = db.rooms ∧
    (deleteReservationPhase db n g).rooms = db.rooms ∧
    (cancelRoomStatusPhase db n).reservations = db.reservations ∧
    newReserved n g a d ∈ (insertReservationPhase db (newReserved n g a d)).reservations ∧
    newCheckedIn n g a d ∈ (insertReservationPhase db (newCheckedIn n g a d)).reservations := by
  refine ⟨?_, ?_, ?_, ?_, ?_, rfl, rfl, rfl, rfl, ?_, ?_, ?_⟩
  · intro db1 h1
    unfold ReservationsRouter.create_reservation at h1
    split at h1
    · exact absurd h1 (by simp)
    split at h1
    · exact absurd h1 (by simp)
    split at h1
    · exact absurd h1 (by simp)
    split at h1
    · exact absurd h1 (by simp)
    split at h1
    · exact absurd h1 (by simp)
    split at h1
    · exact absurd h1 (by simp)
    split at h1
    · exact absurd h1 (by simp)
    injection h1 with h1
    exact h1.symm
  · intro db2 h2
    unfold MainApp.check_in_guest at h2
    split at h2
    · exact absurd h2 (by simp)
    split at h2
    · exact absurd h2 (by simp)
    injection h2 with h2
    exact h2.symm
  · intro db3 h3
    unfold MainApp.check_out_guest at h3
    split at h3
    · exact absurd h3 (by simp)
    split at h3
    · exact absurd h3 (by simp)
    injection h3 with h3
    exact h3.symm
  · intro db4 h4
    unfold ReservationsRouter.delete_reservation at h4
    split at h4
    · exact absurd h4 (by simp)
    split at h4
    · exact absurd h4 (by simp)
    dsimp only [] at h4
    split at h4
    · injection h4 with h4
      exact Or.inl h4.symm
    · injection h4 with h4
      exact Or.inr h4.symm
  · intro db5 h5
    unfold MainApp.cancel_reservation at h5
    split at h5
    · exact absurd h5 (by simp)
    split at h5
    · exact absurd h5 (by simp)
    dsimp only [] at h5
    injection h5 with h5
    exact h5.symm
  · unfold cancelRoomStatusPhase
    split
    · split
      · rfl
      · rfl
    · rfl
  · simp [insertReservationPhase]
  · simp [insertReservationPhase]

/-- The store after a successful check_in_guest on `dbC2`. -/
def dbC2ci : DB :=
  { rooms := [{ room_number := "102", room_type := "standard", amount := 100, status := "checked-in" }],
    reservations := [newCheckedIn "102" "carol" 5 7] }

/-! Lemmas about updating the first matching list element. -/

theorem find?_updateFirst {α : Type} (p : α → Bool) (f : α → α) (l : List α) (a : α)
    (h : l.find? p = some a) (hf : ∀ x, p x = true → p (f x) = true) :
    (updateFirst p f l).find? p = some (f a) := by
  induction l with
  | nil => simp at h
  | cons x xs ih =>
    by_cases hx : p x = true
    · rw [List.find?_cons_of_pos _ hx] at h
      injection h with h
      subst h
      rw [updateFirst, if_pos hx, List.find?_cons_of_pos _ (hf x hx)]
    · rw [List.find?_cons_of_neg _ hx] at h
      rw [updateFirst, if_neg hx, List.find?_cons_of_neg _ hx]
      exact ih h

theorem updateFirst_idem {α : Type} (p : α → Bool) (f : α → α) (l : List α)
    (hf : ∀ x, p x = true → f (f x) = f x) (hp : ∀ x, p x = true → p (f x) = true) :
    updateFirst p f (updateFirst p f l) = updateFirst p f l := by
  induction l with
  | nil => rfl
  | cons x xs ih =>
    by_cases hx : p x = true
    · rw [updateFirst, if_pos hx, updateFirst, if_pos (hp x hx), hf x hx]
    · rw [updateFirst, if_neg hx, updateFirst, if_neg hx, ih]

/-! Concrete payments-side states: room 101 at rate 100/night, a 3-night
checked-in booking (total due 300). -/

/-- Room 101, rate 100 per night. -/
def roomP : Room :=
  { room_number := "101", room_type := "standard", amount := 100, status := "checked-in" }

/-- A checked-in 3-night booking for room 101 (total due 3 x 100 = 300). -/
def bookingP : Booking :=
  { id := 1, room_number := "101", guest_name := "dave", number_of_days := 3,
    status := "checked-in", payment_status := "payment incomplete", booking_cost := 300 }

/-- A prior non-voided payment of 200 against booking 1. -/
def payP200 : Payment :=
  { id := 1, booking_id := 1, amount_paid := 200, discount_allowed := some 0,
    payment_method := "cash", payment_date := 10, balance_due := 100,
    status := "payment incomplete" }

/-- The payments store of Scenario 2 after the 200 payment: total due 300,
non-voided total paid 200. -/
def payDB2 : PayDB := { rooms := [roomP], bookings := [bookingP], payments := [payP200] }

/-- A timezone-aware request to pay another 150 against booking 1. -/
def reqP150 : PaymentRequest :=
  { amount_paid := 150, discount_allowed := some 0, payment_method := "cash",
    payment_date := 50, payment_date_tzaware := true }

/-- C3 (counterexample): on the Scenario-2 store (total due 300, 200 already
paid) a further payment of 150 is rejected, and no payment is recorded — but
the overpayment error's message interpolates the total due amount, 300
("Payment exceeds the total due amount of \x7beffective_total_due\x7d",
app/payments/router.py line 99), not the exact excess, which is
(200 + 150) - 300 = 50. -/
theorem C3_counterexample :
    PaymentsRouter.create_payment payDB2 100 1 reqP150 2 =
      Except.error (ApiError.overpayment 300) ∧
    (200 + 150 : Int) - 300 = 50 ∧
    (300 : Int) ≠ 50 := by
  refine ⟨by decide, by decide, by decide⟩

/-- C3 (amended): for every booking and every RecordPayment call, the sum of
amountPaid + discountAllowed over all non-voided existing payments, plus the
new payment's amountPaid + discountAllowed, must not exceed totalDue (=
number of nights x room rate); the call fails with an overpayment error
exactly when that total strictly exceeds totalDue, the error's message names
the totalDue amount (not the excess), and — the error being raised before the
payment row is created — no payment is recorded. -/
theorem C3_amended_overpayment_rejection (db : PayDB) (now booking_id next_id : Int)
    (req : PaymentRequest) (booking : Booking) (room : Room)
    (htz : req.payment_date_tzaware = true)
    (hnf : req.payment_date ≤ now)
    (hb : db.bookings.find? (fun b => b.id == booking_id) = some booking)
    (hr : PaymentsRouter.get_room_by_number db booking.room_number = some room)
    (hst : booking.status = "checked-in" ∨ booking.status = "reserved") :
    PaymentsRouter.create_payment db now booking_id req next_id =
        Except.error (ApiError.overpayment (booking.number_of_days * room.amount)) ↔
      booking.number_of_days * room.amount <
        PaymentsRouter.total_existing_payment db booking_id
          + req.amount_paid + req.discount_allowed.getD 0 := by
  have hsb : (booking.status == "checked-in" || booking.status == "reserved") = true := by
    rcases hst with h | h <;> simp [h]
  have hd : decide (now < req.payment_date) = false := decide_eq_false (not_lt.mpr hnf)
  unfold PaymentsRouter.create_payment
  simp only [htz, hd, hb, hr, hsb, Bool.not_true, Bool.false_eq_true, if_false,
    decide_eq_true_eq]
  by_cases hlt : booking.number_of_days * room.amount <
      PaymentsRouter.total_existing_payment db booking_id
        + req.amount_paid + req.discount_allowed.getD 0
  · rw [if_pos hlt]
    simp [hlt]
  · rw [if_neg hlt]
    simp [hlt]

/-- C3 (witness): the overpayment characterization applied to the Scenario-2
store: 200 + 150 + 0 > 300, so the call errs with the total due, 300. -/
theorem C3_witness :
    PaymentsRouter.create_payment payDB2 100 1 reqP150 2 =
      Except.error (ApiError.overpayment (bookingP.number_of_days * roomP.amount)) :=
  (C3_amended_overpayment_rejection payDB2 100 1 2 reqP150 bookingP roomP rfl (by decide)
    rfl rfl (Or.inl rfl)).mpr (by decide)

/-- A room row of the updated store that carries the target room number got
the written status. -/
theorem setRoomStatus_mem_status (db : DB) (n s : String) (room : Room)
    (h : room ∈ (setRoomStatus db n s).rooms) (hn : room.room_number = n) :
    room.status = s := by
  simp only [setRoomStatus, List.mem_map] at h
  obtain ⟨r0, _, hr0⟩ := h
  by_cases hb : r0.room_number == n
  · rw [if_pos hb] at hr0
    rw [← hr0]
  · rw [if_neg hb] at hr0
    subst hr0
    exact absurd (beq_iff_eq.mpr hn) hb

/-- A store with a checked-in stay on room 101 for days 10-12 and a separate
future reserved stay on the same room for days 20-25. -/
def dbC4 : DB :=
  { rooms := [{ room_number := "101", room_type := "standard", amount := 100, status := "checked-in" }],
    reservations := [{ room_number := "101", guest_name := "bob", arrival_date := 10,
                       departure_date := 12, status := "checked-in" },
                     { room_number := "101", guest_name := "alice", arrival_date := 20,
                       departure_date := 25, status := "reserved" }] }

/-- The store after checking room 101 out of `dbC4`: bob's stay is
checked-out, alice's future reserved stay remains active, yet the room's
status reads "available". -/
def dbC4after : DB :=
  { rooms := [{ room_number := "101", room_type := "standard", amount := 100, status := "available" }],
    reservations := [{ room_number := "101", guest_name := "bob", arrival_date := 10,
                       departure_date := 12, status := "checked-out" },
                     { room_number := "101", guest_name := "alice", arrival_date := 20,
                       departure_date := 25, status := "reserved" }] }

/-- C4 (counterexample): check_out_guest (src/main.py line 398) sets the
room's status to "available" unconditionally rather than re-scanning the
remaining active stays: from `dbC4`, after a successful CheckOut of room 101,
the room's status is "available" even though one active (reserved) stay still
references the room — refuting "available if and only if no active stay
remains". -/
theorem C4_counterexample :
    MainApp.check_out_guest dbC4 "101" = Except.ok dbC4after ∧
    findRoom dbC4after "101" =
      some { room_number := "101", room_type := "standard", amount := 100, status := "available" } ∧
    (dbC4after.reservations.filter (fun r => r.room_number == "101" && activeStay r)).length = 1 := by
  refine ⟨rfl, by decide, by decide⟩

/-- C4 (amended): after a successful CheckOut the room's status is set to
"available" unconditionally, with no re-scan of remaining active stays;
independently, after a successful delete_reservation the room's status is set
to "available" if and only if no reservation row of any status (active or
not — historical checked-out rows also count) remains for that room, and the
rooms table is left untouched otherwise. -/
theorem C4_amended_status_reset (db : DB) (n role username guest : String) :
    (∀ db1, MainApp.check_out_guest db n = Except.ok db1 →
      ∀ room ∈ db1.rooms, room.room_number = n → room.status = "available") ∧
    (∀ db2, ReservationsRouter.delete_reservation db role username n guest = Except.ok db2 →
      ((deleteReservationPhase db n guest).reservations.filter
        (fun r => r.room_number == n)).length = 0 →
      ∀ room ∈ db2.rooms, room.room_number = n → room.status = "available") ∧
    (∀ db2, ReservationsRouter.delete_reservation db role username n guest = Except.ok db2 →
      ¬ ((deleteReservationPhase db n guest).reservations.filter
        (fun r => r.room_number == n)).length = 0 →
      db2.rooms = db.rooms) := by
  refine ⟨?_, ?_, ?_⟩
  · intro db1 h1 room hmem hn
    unfold MainApp.check_out_guest at h1
    split at h1
    · exact absurd h1 (by simp)
    split at h1
    · exact absurd h1 (by simp)
    injection h1 with h1
    rw [← h1] at hmem
    exact setRoomStatus_mem_status _ n "available" room hmem hn
  · intro db2 h2 hzero room hmem hn
    unfold ReservationsRouter.delete_reservation at h2
    split at h2
    · exact absurd h2 (by simp)
    split at h2
    · exact absurd h2 (by simp)
    dsimp only [] at h2
    split at h2
    · injection h2 with h2
      rw [← h2] at hmem
      exact setRoomStatus_mem_status _ n "available" room hmem hn
    · next hrem =>
      exact absurd (by simpa using hzero) hrem
  · intro db2 h2 hnonzero
    unfold ReservationsRouter.delete_reservation at h2
    split at h2
    · exact absurd h2 (by simp)
    split at h2
    · exact absurd h2 (by simp)
    dsimp only [] at h2
    split at h2
    · next hrem =>
      exact absurd (by simpa using hrem) hnonzero
    · injection h2 with h2
      rw [← h2]
      rfl

/-- The store after an admin deletes bob's reservation row from `dbC4`:
alice's row remains, so the room status is untouched. -/
def dbC4deleted : DB :=
  { rooms := dbC4.rooms,
    reservations := [{ room_number := "101", guest_name := "alice", arrival_date := 20,
                       departure_date := 25, status := "reserved" }] }

/-- C5: the conflict-detection predicate `datesConflict` used by the
reservation-creation queries (inline in src/main.py create_reservation, and
in the availability predicates) holds of an existing interval [a2,d2] and a
requested interval [a1,d1] if and only if a1 ≤ d2 and a2 ≤ d1 — inclusive
bounds on both sides — so in particular an existing stay departing on day x
conflicts with a new stay arriving on day x. -/
theorem C5_overlap_predicate_inclusive :
    (∀ a1 d1 a2 d2 : Int, datesConflict a2 d2 a1 d1 = true ↔ (a1 ≤ d2 ∧ a2 ≤ d1)) ∧
    (∀ x a2 d1 : Int, a2 ≤ x → x ≤ d1 → datesConflict a2 x x d1 = true) := by
  constructor
  · intro a1 d1 a2 d2
    constructor
    · intro h
      simp only [datesConflict, Bool.and_eq_true, decide_eq_true_eq] at h
      exact ⟨h.2, h.1⟩
    · intro h
      simp only [datesConflict, Bool.and_eq_true, decide_eq_true_eq]
      exact ⟨h.2, h.1⟩
  · intro x a2 d1 h1 h2
    simp only [datesConflict, Bool.and_eq_true, decide_eq_true_eq]
    exact ⟨le_trans h1 h2, le_refl x⟩

/-- C5 (witness): the predicate evaluated through the theorem — request days
2-5 against existing days 1-3 conflict, and an existing stay departing on
day 4 conflicts with a new stay arriving on day 4. -/
theorem C5_witness : datesConflict 1 3 2 5 = true ∧ datesConflict 1 4 4 9 = true :=
  ⟨(C5_overlap_predicate_inclusive.1 2 5 1 3).mpr ⟨by decide, by decide⟩,
   C5_overlap_predicate_inclusive.2 4 1 9 (by decide) (by decide)⟩

/-- C6: for every successful RecordPayment, the stored balance due equals
max(totalDue - newTotalPaid, 0) where totalDue = number of nights x room rate
and newTotalPaid aggregates the non-voided existing payments plus the new
payment's amount and discount; the payment's status is "payment completed"
when the balance due is 0 and "payment incomplete" otherwise; the same status
is written onto the owning booking record; and the payment row is appended to
the store. -/
theorem C6_balance_and_status (db : PayDB) (now booking_id next_id : Int)
    (req : PaymentRequest) (booking : Booking) (room : Room) (db' : PayDB) (p : Payment)
    (hb : db.bookings.find? (fun b => b.id == booking_id) = some booking)
    (hr : PaymentsRouter.get_room_by_number db booking.room_number = some room)
    (h : PaymentsRouter.create_payment db now booking_id req next_id = Except.ok (db', p)) :
    p.balance_due = max (booking.number_of_days * room.amount -
      (PaymentsRouter.total_existing_payment db booking_id + req.amount_paid
        + req.discount_allowed.getD 0)) 0 ∧
    p.status = (if p.balance_due = 0 then "payment completed" else "payment incomplete") ∧
    db'.bookings.find? (fun b => b.id == booking_id) =
      some { booking with payment_status := p.status } ∧
    db'.payments = db.payments ++ [p] := by
  unfold PaymentsRouter.create_payment at h
  split at h
  · exact absurd h (by simp)
  split at h
  · exact absurd h (by simp)
  split at h
  · exact absurd h (by simp)
  next booking1 hb1 =>
  split at h
  · exact absurd h (by simp)
  next room1 hr1 =>
  split at h
  · exact absurd h (by simp)
  dsimp only [] at h
  split at h
  · exact absurd h (by simp)
  next hnotover =>
  rw [hb1] at hb
  injection hb with hb
  subst hb
  rw [hr1] at hr
  injection hr with hr
  subst hr
  injection h with h
  injection h with hdb hp
  subst hdb
  subst hp
  constructor
  · rfl
  constructor
  · by_cases hz : booking1.number_of_days * room1.amount -
        (PaymentsRouter.total_existing_payment db booking_id + req.amount_paid
          + req.discount_allowed.getD 0) = 0
    · simp [hz]
    · have hle : ¬ booking1.number_of_days * room1.amount <
          PaymentsRouter.total_existing_payment db booking_id + req.amount_paid
            + req.discount_allowed.getD 0 := by simpa using hnotover
      have hpos : 0 < booking1.number_of_days * room1.amount -
          (PaymentsRouter.total_existing_payment db booking_id + req.amount_paid
            + req.discount_allowed.getD 0) := by omega
      have hmax : max (booking1.number_of_days * room1.amount -
          (PaymentsRouter.total_existing_payment db booking_id + req.amount_paid
            + req.discount_allowed.getD 0)) 0 = booking1.number_of_days * room1.amount -
          (PaymentsRouter.total_existing_payment db booking_id + req.amount_paid
            + req.discount_allowed.getD 0) := max_eq_left (le_of_lt hpos)
      simp only [hmax, if_neg hz]
      rw [if_pos (decide_eq_true hpos)]
  constructor
  · apply find?_updateFirst
    · exact hb1
    · intro b hbeq
      simpa using hbeq
  · rfl

/-- The payments store of Scenario 1 before any payment: room 101 at rate
100/night, a 3-night checked-in booking, no payment rows. -/
def payDB1 : PayDB := { rooms := [roomP], bookings := [bookingP], payments := [] }

/-- A timezone-aware request to pay 300 against booking 1. -/
def reqP300 : PaymentRequest :=
  { amount_paid := 300, discount_allowed := some 0, payment_method := "cash",
    payment_date := 50, payment_date_tzaware := true }

/-- The payment row Scenario 1 produces: balance due 0, payment completed. -/
def payP300 : Payment :=
  { id := 1, booking_id := 1, amount_paid := 300, discount_allowed := some 0,
    payment_method := "cash", payment_date := 50, balance_due := 0,
    status := "payment completed" }

/-- The store after Scenario 1's payment: booking 1 carries status
"payment completed". -/
def payDB1after : PayDB :=
  { rooms := [roomP],
    bookings := [{ bookingP with payment_status := "payment completed" }],
    payments := [payP300] }

/-- C6 (witness): the balance-and-status theorem applied to Scenario 1 — a
3-night stay at rate 100 paid 300 yields balance due 0 and status
"payment completed", written onto the booking. -/
theorem C6_witness :
    payP300.balance_due = max (bookingP.number_of_days * roomP.amount -
      (PaymentsRouter.total_existing_payment payDB1 1 + reqP300.amount_paid
        + reqP300.discount_allowed.getD 0)) 0 ∧
    payP300.status = (if payP300.balance_due = 0 then "payment completed" else "payment incomplete") ∧
    payDB1after.bookings.find? (fun b => b.id == 1) =
      some { bookingP with payment_status := payP300.status } :=
  ⟨(C6_balance_and_status payDB1 100 1 1 reqP300 bookingP roomP payDB1after payP300 rfl rfl rfl).1,
   (C6_balance_and_status payDB1 100 1 1 reqP300 bookingP roomP payDB1after payP300 rfl rfl rfl).2.1,
   (C6_balance_and_status payDB1 100 1 1 reqP300 bookingP roomP payDB1after payP300 rfl rfl rfl).2.2.1⟩

/-- C7: when a reservation request passes field and date validation and the
room exists, and the requested range overlaps both an active check-in and an
active reservation, create_reservation (app/reservations/router.py lines
50-75) surfaces the check-in conflict: it raises the error carrying the
overlapping check-in's date range, before the reservation-conflict check
runs. -/
theorem C7_checkin_conflict_surfaced_first (db : DB) (t : Int) (n g : String) (a d : Int)
    (room : Room) (ci rv : Reservation)
    (hne : ¬ n = "")
    (had : a ≤ d)
    (hfut : t < a)
    (hroom : findRoom db n = some room)
    (hci : check_overlapping_check_in db n a d = some ci)
    (_hrv : check_overlapping_reservations db n a d = some rv) :
    ReservationsRouter.create_reservation db t n g a d =
      Except.error (ApiError.conflictCheckIn ci.arrival_date ci.departure_date) := by
  have h1 : (n == "") = false := beq_eq_false_iff_ne.mpr hne
  have h2 : decide (d < a) = false := decide_eq_false (not_lt.mpr had)
  have h3 : decide (a ≤ t) = false := decide_eq_false (not_le.mpr hfut)
  unfold ReservationsRouter.create_reservation
  simp only [h1, h2, h3, Bool.false_eq_true, if_false, hroom, hci]

/-- A store where room 103 carries both an active check-in (bob, days 10-20)
and an overlapping active reservation (alice, days 18-30). -/
def dbC7 : DB :=
  { rooms := [{ room_number := "103", room_type := "standard", amount := 100, status := "checked-in" }],
    reservations := [{ room_number := "103", guest_name := "bob", arrival_date := 10,
                       departure_date := 20, status := "checked-in" },
                     { room_number := "103", guest_name := "alice", arrival_date := 18,
                       departure_date := 30, status := "reserved" }] }

/-- C7 (witness): the check-in-first theorem applied to `dbC7` with a request
for days 15-19, which overlaps both stays: the surfaced error carries bob's
check-in range 10-20. -/
theorem C7_witness :
    ReservationsRouter.create_reservation dbC7 0 "103" "eve" 15 19 =
      Except.error (ApiError.conflictCheckIn 10 20) :=
  C7_checkin_conflict_surfaced_first dbC7 0 "103" "eve" 15 19
    { room_number := "103", room_type := "standard", amount := 100, status := "checked-in" }
    { room_number := "103", guest_name := "bob", arrival_date := 10,
      departure_date := 20, status := "checked-in" }
    { room_number := "103", guest_name := "alice", arrival_date := 18,
      departure_date := 30, status := "reserved" }
    (by decide) (by decide) (by decide) rfl rfl rfl

/-- A store holding alice's reserved stay on room 101, with the room cached
as "reserved". -/
def dbC8 : DB :=
  { rooms := [{ room_number := "101", room_type := "standard", amount := 100, status := "reserved" }],
    reservations := [{ room_number := "101", guest_name := "alice", arrival_date := 10,
                       departure_date := 20, status := "reserved" }] }

/-- C8 (counterexample): cancel_reservation (src/main.py lines 466-468)
rejects every non-admin caller and never reads the caller's username, so the
guest who made the reservation cannot cancel it: on `dbC8`, where the only
matching reservation belongs to alice, a call by alice herself (role "user")
fails with the permission error, although the claim requires PermissionError
only for callers that are neither admin nor the owning guest. -/
theorem C8_counterexample :
    (dbC8.reservations.find? (fun r => r.room_number == "101")).map Reservation.guest_name =
      some "alice" ∧
    MainApp.cancel_reservation dbC8 "user" "101" =
      Except.error (ApiError.permission "You do not have permission to cancel reservations.") := by
  refine ⟨rfl, rfl⟩

/-- C8 (amended): the router's delete_reservation
(app/reservations/router.py), once a matching reservation exists, fails with
PermissionError exactly for callers who are neither admin nor the guest who
made the reservation, leaving the store unchanged, and raises no permission
error for admins or the owning guest; main.py's cancel_reservation instead
requires the admin role unconditionally — every non-admin caller, including
the owning guest, gets PermissionError with the store unchanged. -/
theorem C8_amended_cancel_permissions (db : DB) (role username n g : String)
    (resv : Reservation)
    (hfind : db.reservations.find? (fun r => r.room_number == n && r.guest_name == g) = some resv) :
    (¬ role = "admin" → ¬ username = g →
      ReservationsRouter.delete_reservation db role username n g =
        Except.error (ApiError.permission "You do not have permission to delete this reservation.") ∧
      commitState db (ReservationsRouter.delete_reservation db role username n g) = db) ∧
    ((role = "admin" ∨ username = g) →
      (ReservationsRouter.delete_reservation db role username n g).isOk = true) ∧
    (¬ role = "admin" →
      MainApp.cancel_reservation db role n =
        Except.error (ApiError.permission "You do not have permission to cancel reservations.") ∧
      commitState db (MainApp.cancel_reservation db role n) = db) := by
  have hg : resv.guest_name = g := by
    have := List.find?_some hfind
    simp only [Bool.and_eq_true, beq_iff_eq] at this
    exact this.2
  refine ⟨?_, ?_, ?_⟩
  · intro hrole howner
    have hcond : (role != "admin" && resv.guest_name != username) = true := by
      simp only [Bool.and_eq_true, bne_iff_ne]
      exact ⟨hrole, by rw [hg]; exact fun e => howner e.symm⟩
    unfold ReservationsRouter.delete_reservation
    rw [hfind]
    simp only [hcond, if_true]
    exact ⟨by trivial, by trivial⟩
  · intro hperm
    have hcond : (role != "admin" && resv.guest_name != username) = false := by
      rcases hperm with hrole | howner
      · simp [hrole]
      · simp [hg, howner]
    unfold ReservationsRouter.delete_reservation
    rw [hfind]
    simp only [hcond, Bool.false_eq_true, if_false]
    split
    · rfl
    · rfl
  · intro hrole
    have hcond : (role != "admin") = true := bne_iff_ne.mpr hrole
    unfold MainApp.cancel_reservation
    simp only [hcond, if_true]
    exact ⟨by trivial, by trivial⟩

/-- C8 (witness): the permission theorem applied to `dbC8` — the caller
"mallory" with role "user" is neither admin nor alice, so deleting alice's
reservation through the router fails with the permission error and leaves the
store unchanged, while an admin's call succeeds. -/
theorem C8_witness :
    (ReservationsRouter.delete_reservation dbC8 "user" "mallory" "101" "alice" =
       Except.error (ApiError.permission "You do not have permission to delete this reservation.") ∧
     commitState dbC8 (ReservationsRouter.delete_reservation dbC8 "user" "mallory" "101" "alice") = dbC8) ∧
    (ReservationsRouter.delete_reservation dbC8 "admin" "boss" "101" "alice").isOk = true :=
  ⟨(C8_amended_cancel_permissions dbC8 "user" "mallory" "101" "alice"
      { room_number := "101", guest_name := "alice", arrival_date := 10,
        departure_date := 20, status := "reserved" } rfl).1 (by decide) (by decide),
   (C8_amended_cancel_permissions dbC8 "admin" "boss" "101" "alice"
      { room_number := "101", guest_name := "alice", arrival_date := 10,
        departure_date := 20, status := "reserved" } rfl).2.1 (Or.inl rfl)⟩

/-- C9: create_reservation (app/reservations/router.py) consults the room's
cached status only to reject "maintenance": for an existing room whose status
is not "maintenance", the request is accepted exactly when it passes field and
date validation and neither availability predicate finds an overlapping stay —
in particular the cached status value ("reserved", "checked-in", …) plays no
further role in the accept/reject decision. -/
theorem C9_status_only_gates_maintenance (db : DB) (t : Int) (n g : String) (a d : Int)
    (room : Room)
    (hroom : findRoom db n = some room)
    (hm : ¬ room.status = "maintenance") :
    (ReservationsRouter.create_reservation db t n g a d).isOk = true ↔
      (¬ n = "" ∧ a ≤ d ∧ t < a ∧
        check_overlapping_check_in db n a d = none ∧
        check_overlapping_reservations db n a d = none) := by
  unfold ReservationsRouter.create_reservation
  by_cases h1 : n = ""
  · simp [h1, Except.isOk, Except.toBool]
  rw [if_neg (by simpa using beq_eq_false_iff_ne.mpr h1)]
  by_cases h2 : a ≤ d
  swap
  · rw [if_pos (decide_eq_true (not_le.mp h2))]
    simp [h1, h2, Except.isOk, Except.toBool]
  rw [if_neg (by simp [not_lt.mpr h2])]
  by_cases h3 : t < a
  swap
  · rw [if_pos (decide_eq_true (not_lt.mp h3))]
    simp [h1, h2, h3, Except.isOk, Except.toBool]
  rw [if_neg (by simp [not_le.mpr h3])]
  rw [hroom]
  cases hci : check_overlapping_check_in db n a d with
  | some c => simp [h1, h2, h3, hci, Except.isOk, Except.toBool]
  | none =>
    cases hrv : check_overlapping_reservations db n a d with
    | some c => simp [h1, h2, h3, hci, hrv, Except.isOk, Except.toBool]
    | none =>
      dsimp only []
      rw [if_neg (by simpa using beq_eq_false_iff_ne.mpr hm)]
      simp [h1, h2, h3, Except.isOk, Except.toBool]

/-- A store whose room 104 is cached as "reserved" with one active future
reservation, so a new non-overlapping future request must still be
accepted. -/
def dbC9 : DB :=
  { rooms := [{ room_number := "104", room_type := "standard", amount := 100, status := "reserved" }],
    reservations := [{ room_number := "104", guest_name := "alice", arrival_date := 10,
                       departure_date := 20, status := "reserved" }] }

/-- C9 (witness): the characterization applied to `dbC9` — room 104 sits in
cached status "reserved", and a reservation request for the disjoint future
range 30-40 is accepted. -/
theorem C9_witness :
    (ReservationsRouter.create_reservation dbC9 0 "104" "bob" 30 40).isOk = true :=
  (C9_status_only_gates_maintenance dbC9 0 "104" "bob" 30 40
    { room_number := "104", room_type := "standard", amount := 100, status := "reserved" }
    rfl (by decide)).mpr ⟨by decide, by decide, by decide, by decide, by decide⟩

/-- C10: void_payment is idempotent on the store: if an admin's void of a
payment succeeds — leaving that payment's status "voided" and every other
field, including amount_paid, untouched — then an admin voiding the same
(now already-voided) payment succeeds again and returns exactly the same
store, so the payment row, its amount_paid, and every aggregation over the
store are unchanged by the second void. -/
theorem C10_void_payment_idempotent (db : PayDB) (payment_id : Int) (db1 : PayDB)
    (h : PaymentsRouter.void_payment db "admin" payment_id = Except.ok db1) :
    PaymentsRouter.void_payment db1 "admin" payment_id = Except.ok db1 := by
  unfold PaymentsRouter.void_payment at h ⊢
  rw [if_neg (by simp)] at h ⊢
  split at h
  · exact absurd h (by simp)
  next pay hfind =>
  dsimp only [] at h
  injection h with h
  have hfind1 : get_payment_by_id db1 payment_id =
      some { pay with status := "voided" } := by
    rw [← h]
    unfold get_payment_by_id at hfind ⊢
    exact find?_updateFirst _ _ _ _ hfind (fun x hx => by simpa using hx)
  rw [hfind1]
  dsimp only []
  rw [← h]
  have hidem : updateFirst (fun p => p.id == payment_id)
      (fun p => { p with status := "voided" })
      (updateFirst (fun p => p.id == payment_id)
        (fun p => { p with status := "voided" }) db.payments) =
      updateFirst (fun p => p.id == payment_id)
        (fun p => { p with status := "voided" }) db.payments :=
    updateFirst_idem _ _ _ (fun x _ => rfl) (fun x hx => by simpa using hx)
  simp [hidem]

/-- The payments store holding the single unvoided payment `payP200`. -/
def payDBv : PayDB := { rooms := [roomP], bookings := [bookingP], payments := [payP200] }

/-- The store after an admin voids payment 1 in `payDBv`: the row is kept with
status "voided" and its amount intact. -/
def payDBv1 : PayDB :=
  { rooms := [roomP], bookings := [bookingP],
    payments := [{ payP200 with status := "voided" }] }

/-- C10 (witness): the idempotence theorem applied to `payDBv`: the first
admin void of payment 1 yields `payDBv1`, and voiding the already-voided
payment again succeeds and returns `payDBv1` itself. -/
theorem C10_witness :
    PaymentsRouter.void_payment payDBv1 "admin" 1 = Except.ok payDBv1 :=
  C10_void_payment_idempotent payDBv 1 payDBv1 rfl


/-- The store after an admin cancels the reservation on `dbC8` through
main.py's cancel_reservation: the room was cached "reserved", so its status is
reset, and alice's row is deleted. -/
def dbC8cancelled : DB :=
  { rooms := [{ room_number := "101", room_type := "standard", amount := 100, status := "available" }],
    reservations := [] }

/-- C2 (witness): the per-operation factoring theorem applied at concrete
stores on which each operation succeeds — create_reservation and
check_in_guest on `dbC2`, check_out_guest and delete_reservation on `dbC4`
(bob's row is deleted, alice's remains, so the room reset branch is not
taken), and cancel_reservation on `dbC8`. -/
theorem C2_witness :
    dbC2full = setRoomStatus (insertReservationPhase dbC2 (newReserved "102" "carol" 5 7)) "102" "reserved" ∧
    dbC2ci = setRoomStatus (insertReservationPhase dbC2 (newCheckedIn "102" "carol" 5 7)) "102" "checked-in" ∧
    dbC4after = setRoomStatus (checkOutStayPhase dbC4 "101") "101" "available" ∧
    (dbC4deleted = setRoomStatus (deleteReservationPhase dbC4 "101" "bob") "101" "available" ∨
      dbC4deleted = deleteReservationPhase dbC4 "101" "bob") ∧
    dbC8cancelled = { cancelRoomStatusPhase dbC8 "101" with
      reservations := removeFirst (fun r => r.room_number == "101")
        (cancelRoomStatusPhase dbC8 "101").reservations } :=
  ⟨(C2_amended_two_separate_commits dbC2 0 "102" "carol" "admin" "boss" 5 7).1 dbC2full rfl,
   (C2_amended_two_separate_commits dbC2 0 "102" "carol" "admin" "boss" 5 7).2.1 dbC2ci rfl,
   (C2_amended_two_separate_commits dbC4 0 "101" "bob" "admin" "boss" 10 12).2.2.1 dbC4after rfl,
   (C2_amended_two_separate_commits dbC4 0 "101" "bob" "admin" "boss" 10 12).2.2.2.1 dbC4deleted rfl,
   (C2_amended_two_separate_commits dbC8 0 "101" "alice" "admin" "boss" 10 20).2.2.2.2.1
     dbC8cancelled rfl⟩

/-- A store whose room 101 is cached "reserved" and whose stays are alice's
future reserved stay plus a historical checked-out stay of bob. -/
def dbC4X : DB :=
  { rooms := [{ room_number := "101", room_type := "standard", amount := 100, status := "reserved" }],
    reservations := [{ room_number := "101", guest_name := "alice", arrival_date := 20,
                       departure_date := 25, status := "reserved" },
                     { room_number := "101", guest_name := "bob", arrival_date := 10,
                       departure_date := 12, status := "checked-out" }] }

/-- The store after an admin deletes alice's reservation from `dbC4X`: only
bob's historical checked-out row remains, and because that row still counts,
the room keeps its cached "reserved" status although no active stay is left. -/
def dbC4Xdeleted : DB :=
  { rooms := dbC4X.rooms,
    reservations := [{ room_number := "101", guest_name := "bob", arrival_date := 10,
                       departure_date := 12, status := "checked-out" }] }

/-- The store after an admin deletes alice's only reservation from `dbC8`: no
row remains, so the room is reset to "available". -/
def dbC8deleted : DB :=
  { rooms := [{ room_number := "101", room_type := "standard", amount := 100, status := "available" }],
    reservations := [] }

/-- C4 (witness): the amended theorem applied at three concrete stores — a
CheckOut on `dbC4` (the room reads available although alice's reserved stay
remains), a delete on `dbC8` removing the last row (the room is reset to
available), and a delete on `dbC4X` where only bob's checked-out historical
row remains (rows of any status count, so the rooms table is untouched). -/
theorem C4_witness :
    (∀ room ∈ dbC4after.rooms, room.room_number = "101" → room.status = "available") ∧
    (∀ room ∈ dbC8deleted.rooms, room.room_number = "101" → room.status = "available") ∧
    dbC4Xdeleted.rooms = dbC4X.rooms :=
  ⟨(C4_amended_status_reset dbC4 "101" "admin" "boss" "bob").1 dbC4after rfl,
   (C4_amended_status_reset dbC8 "101" "admin" "boss" "alice").2.1 dbC8deleted rfl (by decide),
   (C4_amended_status_reset dbC4X "101" "admin" "boss" "alice").2.2 dbC4Xdeleted rfl (by decide)⟩

end HMS
